import Mathlib

/-!
# Verification of the pretorin-cli Runtime Manager (`src/pretorin/agent/codex_runtime.py`)

Shallow embedding of the pinned-binary lifecycle manager: platform detection,
download, checksum verification, tarball extraction, permission setting, the
`ensure_installed` coordinator, the isolated environment builder and the
hand-rolled TOML config writer.

Modelling conventions:
* Python strings are Lean `String`s (sequences of code points); byte contents
  of binary files are `List Nat`.
* The filesystem is an explicit state: a list of directories and an
  association list from paths to file records (content + permission mode).
  Stateful Python methods become Lean functions threading this state.
* Exceptions become `Except String` results whose payload is the formatted
  Python message (Python `repr` in messages is abstracted to plain insertion).
* Ambient inputs of the process (OS name, CPU name, the bytes the HTTP client
  would deliver, the SHA-256 hex-digest function, the tar parser, the name the
  tempfile module picks) are bundled in a `World` parameter, so every run of
  the pipeline is a pure function of the world and the filesystem.
-/

set_option autoImplicit false
set_option linter.unusedVariables false

deriving instance DecidableEq for Except

namespace CodexRuntime

/-- One member of a tar archive: its name (a path), its bytes when
`extractfile` would return a stream (`none` for directories and other
non-regular members), and its recorded permission mode. -/
structure TarMember where
  name : String
  content : Option (List Nat)
  mode : Nat

/-- `platform.system().lower()` / `platform.machine().lower()` and the bytes of
any downloaded payload, abstracted as ambient inputs of one run. -/
structure World where
  system : String
  machine : String
  /-- Name that `tempfile.NamedTemporaryFile` picks for the temp archive. -/
  tmpPath : String
  /-- Outcome of the streamed HTTP GET: the payload bytes, or an HTTP error. -/
  net : Except String (List Nat)
  /-- SHA-256 hex digest of a byte string (`hashlib.sha256(...).hexdigest()`),
  abstracted as a function on the streamed content. -/
  hash : List Nat → String
  /-- Parse of a byte string as a gzip-compressed tar archive: `none` when
  `tarfile.open` would fail, otherwise the member list in `getnames()` order. -/
  parseTar : List Nat → Option (List TarMember)

/-- A regular file on disk: content bytes and permission mode (`st_mode`). -/
structure FSFile where
  content : List Nat
  mode : Nat
  deriving DecidableEq, Repr

/-- Filesystem state: existing directories and regular files by path. -/
structure FS where
  dirs : List String
  files : List (String × FSFile)
  deriving DecidableEq, Repr

/-- `Path.exists()` for a regular file path. -/
def fsExists (fs : FS) (p : String) : Bool :=
  fs.files.any (fun q => q.1 = p)

/-- `open(p)` / `p.stat()`: the file record at `p`, if any. -/
def fsLookup (fs : FS) (p : String) : Option FSFile :=
  (fs.files.find? (fun q => q.1 = p)).map (fun q => q.2)

/-- `p.unlink(missing_ok=True)`: remove the file at `p` when present. -/
def fsUnlink (fs : FS) (p : String) : FS :=
  FS.mk fs.dirs (fs.files.filter (fun q => q.1 ≠ p))

/-- `open(p, "wb")` followed by a full write: create or overwrite `p`. -/
def fsWrite (fs : FS) (p : String) (f : FSFile) : FS :=
  if fs.files.any (fun q => q.1 = p) then
    FS.mk fs.dirs (fs.files.map (fun q => if q.1 = p then (q.1, f) else q))
  else
    FS.mk fs.dirs (fs.files ++ [(p, f)])

/-- `d.mkdir(parents=True, exist_ok=True)`. -/
def fsMkdir (fs : FS) (d : String) : FS :=
  if fs.dirs.contains d then fs else FS.mk (fs.dirs ++ [d]) fs.files

/-- `CODEX_VERSION` pin. -/
def CODEX_VERSION : String := "rust-v0.88.0-alpha.3"

/-- `CODEX_CHECKSUMS`: static per-platform SHA-256 table. -/
def CODEX_CHECKSUMS : List (String × String) :=
  [("darwin-arm64", "a20463a19ed5dd7fe01cdd14cbdf11e7a1b23296135df61aba65944dc0ac5367"),
   ("darwin-x64", "ea5a1343cd1b7216ccf6085257217ef1819f54c237cb60e33a9f000f4456405d"),
   ("linux-x64", "e3dd97f06ad09f7893e73d7ea091bdc5045ef7bd7ba306140d13a14d512cdc5f")]

/-- `CODEX_CHECKSUMS.get(plat, "")`. -/
def checksumFor (plat : String) : String :=
  ((CODEX_CHECKSUMS.find? (fun q => q.1 = plat)).map (fun q => q.2)).getD ""

/-- Python `str.lower()` on one character (ASCII range, which covers every OS
and machine name involved). -/
def pyLowerChar (c : Char) : Char :=
  if 'A' ≤ c ∧ c ≤ 'Z' then Char.ofNat (c.toNat + 32) else c

/-- Python `str.lower()`. -/
def pyLower (s : String) : String :=
  String.mk (s.data.map pyLowerChar)

/-- `_detect_platform()`: maps the lowered OS/machine names to a platform key,
or raises `RuntimeError` for an unsupported OS. -/
def detectPlatform (system machine : String) : Except String String :=
  let s := pyLower system
  let m := pyLower machine
  if s = "darwin" then
    Except.ok (if m = "arm64" then "darwin-arm64" else "darwin-x64")
  else if s = "linux" then
    Except.ok "linux-x64"
  else
    Except.error ("Unsupported platform: " ++ s ++ "/" ++ m)

/-- The `CodexRuntime` object's immutable fields: the user's home directory
(`Path.home()`) and the pinned version. -/
structure Runtime where
  home : String
  version : String

/-- `self.bin_dir = Path.home() / ".pretorin" / "bin"`. -/
def Runtime.binDir (rt : Runtime) : String :=
  rt.home ++ "/.pretorin/bin"

/-- `self.codex_home = Path.home() / ".pretorin" / "codex"`. -/
def Runtime.codexHome (rt : Runtime) : String :=
  rt.home ++ "/.pretorin/codex"

/-- `self.binary_path`: deterministic path of the pinned binary. -/
def Runtime.binaryPath (rt : Runtime) : String :=
  rt.binDir ++ "/codex-" ++ rt.version

/-- `self.is_installed`: `p.exists() and bool(p.stat().st_mode & 0o111)`,
recomputed from the filesystem state on every call. -/
def isInstalled (rt : Runtime) (fs : FS) : Bool :=
  match fsLookup fs rt.binaryPath with
  | none => false
  | some f => fsExists fs rt.binaryPath && (f.mode &&& 0o111 ≠ 0)

/-- `Path(name).name`: the last `/`-separated component. -/
def basename (s : String) : String :=
  (s.splitOn "/").getLastD s

/-- Loop of `_extract_tarball` over `tar.getnames()`: first member whose base
name is exactly `codex` or starts with `codex-`. -/
def findCodexMember (members : List TarMember) : Option TarMember :=
  members.find? (fun m => basename m.name = "codex" || (basename m.name).startsWith "codex-")

/-- Fallback of `_extract_tarball`: `tar.extractall` into a fresh temp
directory then walk the tree for a file named `codex` or `codex-cli`; the walk
is modelled as visiting regular members in archive order. -/
def findCodexFallback (members : List TarMember) : Option TarMember :=
  members.find? (fun m =>
    m.content.isSome && (basename m.name = "codex" || basename m.name = "codex-cli"))

/-- `_extract_tarball`: locate the codex binary inside the downloaded archive
and copy its bytes to `binary_path`; the temp archive is unlinked
(`missing_ok=True`) in a `finally` block on every exit path. -/
def extractTarball (rt : Runtime) (w : World) (fs : FS) : Except String Unit × FS :=
  let body : Except String Unit × FS :=
    match fsLookup fs w.tmpPath with
    | none => (Except.error "tarfile.open failed: no such file", fs)
    | some tarball =>
      match w.parseTar tarball.content with
      | none => (Except.error "tarfile.open failed: not a gzip tar archive", fs)
      | some members =>
        match findCodexMember members with
        | some mem =>
          match mem.content with
          | none => (Except.error ("Could not extract " ++ mem.name ++ " from tarball"), fs)
          | some bytes =>
            -- `open(self.binary_path, "wb")` creates with the default mode
            (Except.ok (), fsWrite fs rt.binaryPath (FSFile.mk bytes 0o644))
        | none =>
          match findCodexFallback members with
          | some mem =>
            -- `shutil.copy2` preserves the source mode
            (Except.ok (), fsWrite fs rt.binaryPath (FSFile.mk (mem.content.getD []) mem.mode))
          | none => (Except.error "Could not find codex binary in tarball", fs)
  (body.1, fsUnlink body.2 w.tmpPath)

/-- `_verify_checksum`: look up the expected digest for the detected platform;
empty → warn and extract unverified; mismatch → unlink the temp file and raise
with both digests; match → extract. -/
def verifyChecksum (rt : Runtime) (w : World) (fs : FS) : Except String Unit × FS :=
  match detectPlatform w.system w.machine with
  | Except.error e => (Except.error e, fs)
  | Except.ok plat =>
    let expected := checksumFor plat
    if expected = "" then
      -- logger.warning: no checksum configured — skipping verification
      extractTarball rt w fs
    else
      match fsLookup fs w.tmpPath with
      | none => (Except.error "FileNotFoundError", fs)
      | some tarball =>
        let actual := w.hash tarball.content
        if actual ≠ expected then
          (Except.error ("Checksum mismatch for " ++ plat ++ ":\n  expected: " ++ expected
              ++ "\n  actual:   " ++ actual),
           fsUnlink fs w.tmpPath)
        else
          extractTarball rt w fs

/-- `_download`: build the URL for the detected platform, create `bin_dir` and
a temp file, stream the HTTP body into it; on an HTTP error unlink the partial
file (`missing_ok=True`) and raise a wrapped error. -/
def download (rt : Runtime) (w : World) (fs : FS) : Except String Unit × FS :=
  match detectPlatform w.system w.machine with
  | Except.error e => (Except.error e, fs)
  | Except.ok _plat =>
    let fs1 := fsMkdir fs rt.binDir
    -- `NamedTemporaryFile(delete=False)` creates the (empty) temp file
    let fs2 := fsWrite fs1 w.tmpPath (FSFile.mk [] 0o600)
    match w.net with
    | Except.ok bytes => (Except.ok (), fsWrite fs2 w.tmpPath (FSFile.mk bytes 0o600))
    | Except.error e =>
      (Except.error ("Failed to download Codex binary: " ++ e), fsUnlink fs2 w.tmpPath)

/-- `_make_executable`: `chmod(st_mode | S_IXUSR | S_IXGRP | S_IXOTH)`. -/
def makeExecutable (rt : Runtime) (fs : FS) : Except String Unit × FS :=
  match fsLookup fs rt.binaryPath with
  | none => (Except.error "FileNotFoundError", fs)
  | some f => (Except.ok (), fsWrite fs rt.binaryPath (FSFile.mk f.content (f.mode ||| 0o111)))

/-- Observable stage invocations of the install pipeline; `.download` marks the
network request. -/
inductive Event where
  | download
  | verifyChecksum
  | extract
  | chmod
  deriving DecidableEq, Repr

/-- `ensure_installed`: return the path at once when installed, otherwise run
download → verify (which extracts) → chmod, failing fast. The event trace
records which stages ran. -/
def ensureInstalled (rt : Runtime) (w : World) (fs : FS) :
    Except String String × FS × List Event :=
  if isInstalled rt fs then
    (Except.ok rt.binaryPath, fs, [])
  else
    match download rt w fs with
    | (Except.error e, fs1) => (Except.error e, fs1, [Event.download])
    | (Except.ok _, fs1) =>
      match verifyChecksum rt w fs1 with
      | (Except.error e, fs2) =>
        (Except.error e, fs2, [Event.download, Event.verifyChecksum])
      | (Except.ok _, fs2) =>
        match makeExecutable rt fs2 with
        | (Except.error e, fs3) =>
          (Except.error e, fs3,
           [Event.download, Event.verifyChecksum, Event.extract, Event.chmod])
        | (Except.ok _, fs3) =>
          (Except.ok rt.binaryPath, fs3,
           [Event.download, Event.verifyChecksum, Event.extract, Event.chmod])

/-! ## Environment builder -/

/-- Python `dict` lookup on our association-list model of a `dict[str, str]`. -/
def dictLookup (d : List (String × String)) (k : String) : Option String :=
  (d.find? (fun q => q.1 = k)).map (fun q => q.2)

/-- One step of `dict.update`: replace the value at an existing key in place,
otherwise append the new binding at the end (insertion order preserved). -/
def dictUpdate : List (String × String) → String × String → List (String × String)
  | [], kv => [kv]
  | p :: rest, kv => if p.1 = kv.1 then (p.1, kv.2) :: rest else p :: dictUpdate rest kv

/-- `build_env`: the five-entry base dict (isolated `CODEX_HOME`, API key, base
URL, inherited `PATH` and `HOME` with `""` default), then `env.update(extra)`.
`procEnv` is the caller process's `os.environ`. -/
def buildEnv (rt : Runtime) (procEnv : String → Option String) (apiKey baseUrl : String)
    (extra : List (String × String)) : List (String × String) :=
  let env := [("CODEX_HOME", rt.codexHome), ("OPENAI_API_KEY", apiKey),
              ("OPENAI_BASE_URL", baseUrl), ("PATH", (procEnv "PATH").getD ""),
              ("HOME", (procEnv "HOME").getD "")]
  extra.foldl dictUpdate env

/-! ## TOML escaping and bare keys -/

/-- Python `str.replace` for a single-character needle: every occurrence of
`needle` in the code-point sequence becomes `repl`. -/
def pyReplaceChar (needle : Char) (repl : List Char) (s : List Char) : List Char :=
  s.flatMap (fun c => if c = needle then repl else [c])

/-- `_toml_escape`: backslash first, then double-quote, newline, carriage
return, tab, each to its two-character escape, in that fixed order. -/
def tomlEscape (s : List Char) : List Char :=
  let s1 := pyReplaceChar '\\' ['\\', '\\'] s
  let s2 := pyReplaceChar '"' ['\\', '"'] s1
  let s3 := pyReplaceChar '\n' ['\\', 'n'] s2
  let s4 := pyReplaceChar '\r' ['\\', 'r'] s3
  pyReplaceChar '\t' ['\\', 't'] s4

/-- `_toml_escape` at `String` type. -/
def tomlEscapeStr (s : String) : String :=
  String.mk (tomlEscape s.data)

/-- Per-character form of the escaper: what one input character contributes to
the output of the full five-stage pipeline. -/
def escChar (c : Char) : List Char :=
  if c = '\\' then ['\\', '\\']
  else if c = '"' then ['\\', '"']
  else if c = '\n' then ['\\', 'n']
  else if c = '\r' then ['\\', 'r']
  else if c = '\t' then ['\\', 't']
  else [c]

/-- Modelled from the spec: decoding of one escape letter by a conforming
reader of the target format (TOML basic strings); the repository itself
contains no TOML reader. -/
def unescapeOf (e : Char) : Option Char :=
  if e = '\\' then some '\\'
  else if e = '"' then some '"'
  else if e = 'n' then some '\n'
  else if e = 'r' then some '\r'
  else if e = 't' then some '\t'
  else none

/-- Modelled from the spec: a conforming reader's decoding of a basic-string
body — a backslash must introduce a recognised escape, every other character
stands for itself; `none` on a malformed body. -/
def tomlUnescape : List Char → Option (List Char)
  | [] => some []
  | c :: rest =>
    if c = '\\' then
      match rest with
      | [] => none
      | e :: rest' =>
        match unescapeOf e with
        | none => none
        | some d => (tomlUnescape rest').map (fun t => d :: t)
    else
      (tomlUnescape rest).map (fun t => c :: t)

/-- Character class of `r"[A-Za-z0-9_-]"`. -/
def isBareKeyChar (c : Char) : Bool :=
  ('A' ≤ c && c ≤ 'Z') || ('a' ≤ c && c ≤ 'z') || ('0' ≤ c && c ≤ '9') || c = '_' || c = '-'

/-- `re.fullmatch(r"[A-Za-z0-9_-]+", key)`: nonempty and all characters in the
class. -/
def isBareKey (s : String) : Bool :=
  s ≠ "" && s.data.all isBareKeyChar

/-- `_toml_bare_key`: return the key unchanged or raise `ValueError`. -/
def tomlBareKey (key : String) : Except String String :=
  if isBareKey key then Except.ok key else Except.error ("Invalid TOML key: " ++ key)

/-! ## Config writer -/

/-- One entry of the side `mcp.json` file's `servers` object. -/
structure McpServer where
  command : Option String
  args : Option (List String)
  url : Option String
  deriving DecidableEq, Repr

/-- State of the optional side file `~/.pretorin/mcp.json`: absent, present
but unreadable (`OSError`), present but not JSON (`json.JSONDecodeError`), or
parsed into its `servers` entries in file order. -/
inductive SideFile where
  | absent
  | unreadable
  | malformed
  | parsed (servers : List (String × McpServer))
  deriving DecidableEq, Repr

/-- `_load_user_mcp_servers`: `{}` when the file is absent, unreadable or
malformed; otherwise the `servers` entries with the reserved name `pretorin`
skipped. -/
def loadUserMcpServers : SideFile → List (String × McpServer)
  | SideFile.absent => []
  | SideFile.unreadable => []
  | SideFile.malformed => []
  | SideFile.parsed svs => svs.filter (fun q => q.1 ≠ "pretorin")

/-- Lines emitted for one extra MCP server subsection: blank separator,
section header, then `command` / `args` / `url` lines for the fields that are
present and truthy (non-empty). -/
def serverLines (name : String) (s : McpServer) : List String :=
  ["", "[mcp_servers." ++ name ++ "]"]
  ++ (match s.command with
      | some c => if c ≠ "" then ["command = \"" ++ tomlEscapeStr c ++ "\""] else []
      | none => [])
  ++ (match s.args with
      | some as =>
        if as ≠ [] then
          ["args = [" ++ String.intercalate ", "
              (as.map (fun a => "\"" ++ tomlEscapeStr a ++ "\"")) ++ "]"]
        else []
      | none => [])
  ++ (match s.url with
      | some u => if u ≠ "" then ["url = \"" ++ tomlEscapeStr u ++ "\""] else []
      | none => [])

/-- The loop of `write_config` over the extra servers: validate each name as a
bare key (first failure raises) and concatenate the subsections in order. -/
def extraServerLines : List (String × McpServer) → Except String (List String)
  | [] => Except.ok []
  | (n, s) :: rest =>
    match tomlBareKey n with
    | Except.error e => Except.error e
    | Except.ok sn =>
      match extraServerLines rest with
      | Except.error e => Except.error e
      | Except.ok ls => Except.ok (serverLines sn s ++ ls)

/-- The fixed leading lines of the generated `config.toml`: top-level scalars,
the provider subsection, and the reserved `pretorin` MCP subsection. -/
def baseConfigLines (provider baseUrl wireApi envKey : String) : List String :=
  ["model_provider = \"" ++ tomlEscapeStr provider ++ "\"",
   "web_search = \"disabled\"",
   "",
   "[model_providers." ++ provider ++ "]",
   "name = \"" ++ tomlEscapeStr provider ++ "\"",
   "base_url = \"" ++ tomlEscapeStr baseUrl ++ "\"",
   "wire_api = \"" ++ tomlEscapeStr wireApi ++ "\"",
   "env_key = \"" ++ tomlEscapeStr envKey ++ "\"",
   "",
   "[mcp_servers.pretorin]",
   "command = \"pretorin\"",
   "args = [\"mcp-serve\"]"]

/-- Textual filesystem state seen by the config writer. -/
structure CfgFS where
  dirs : List String
  files : List (String × String)
  deriving DecidableEq, Repr

/-- `codex_home.mkdir(parents=True, exist_ok=True)` on the config state. -/
def cfgMkdir (st : CfgFS) (d : String) : CfgFS :=
  if st.dirs.contains d then st else CfgFS.mk (st.dirs ++ [d]) st.files

/-- `config_path.write_text(...)`: whole-file overwrite or create. -/
def cfgWriteFile (st : CfgFS) (p : String) (content : String) : CfgFS :=
  if st.files.any (fun q => q.1 = p) then
    CfgFS.mk st.dirs (st.files.map (fun q => if q.1 = p then (q.1, content) else q))
  else
    CfgFS.mk st.dirs (st.files ++ [(p, content)])

/-- `write_config`: create `codex_home`, validate the provider name, build the
line sequence (base lines, then merged extra MCP subsections), and write
`config.toml` as one joined string with a trailing newline. The `model`
argument is accepted but, as in the source, contributes no line. -/
def writeConfig (rt : Runtime) (model provider baseUrl envKey : String)
    (wireApi : String) (side : SideFile) (st : CfgFS) : Except String String × CfgFS :=
  let st1 := cfgMkdir st rt.codexHome
  let configPath := rt.codexHome ++ "/config.toml"
  match tomlBareKey provider with
  | Except.error e => (Except.error e, st1)
  | Except.ok safeProvider =>
    match extraServerLines (loadUserMcpServers side) with
    | Except.error e => (Except.error e, st1)
    | Except.ok extra =>
      let lines := baseConfigLines safeProvider baseUrl wireApi envKey ++ extra
      (Except.ok configPath,
       cfgWriteFile st1 configPath (String.intercalate "\n" lines ++ "\n"))

/-! ## Derived notions and concrete sample objects used by the theorems -/

/-- The binding that a sequence of `dict` updates leaves at key `k`: the last
update of `k` wins, `none` when `k` is never updated. -/
def lastWins : List (String × String) → String → Option String
  | [], _ => none
  | p :: rest, k =>
    match lastWins rest k with
    | some v => some v
    | none => if p.1 = k then some p.2 else none

/-- A sample installation target shared by the concrete witnesses below. -/
def rtK : Runtime := Runtime.mk "/home/user" "test-v1"

/-- A filesystem holding the pinned binary with mode `0o011` (group and other
execute bits only — the owner-execute bit is clear). -/
def fsGroupExec : FS :=
  FS.mk [] [("/home/user/.pretorin/bin/codex-test-v1", FSFile.mk [] 0o011)]

/-- A filesystem holding the pinned binary with the usual mode `0o755`. -/
def fsOwnerExec : FS :=
  FS.mk [] [("/home/user/.pretorin/bin/codex-test-v1", FSFile.mk [7] 0o755)]

/-- A world in which any network request would fail. -/
def wOffline : World :=
  World.mk "linux" "x86_64" "/tmp/codex.tar.gz" (Except.error "offline")
    (fun _ => "") (fun _ => none)

/-- A filesystem holding only a downloaded temp archive. -/
def fsTmp : FS :=
  FS.mk ["/home/user/.pretorin/bin"] [("/tmp/codex.tar.gz", FSFile.mk [1, 2, 3] 0o600)]

/-- A world whose digest function never returns the registered checksum. -/
def wBadHash : World :=
  World.mk "linux" "x86_64" "/tmp/codex.tar.gz" (Except.error "offline")
    (fun _ => "not-the-digest") (fun _ => none)

/-- The empty config-side filesystem. -/
def cfgEmpty : CfgFS := CfgFS.mk [] []

/-- A sample user MCP server entry. -/
def srvGh : McpServer := McpServer.mk (some "uvx") (some ["mcp-server-github"]) none

/-- Two environments agreeing on `PATH` and `HOME` but differing elsewhere. -/
def envA : String → Option String := fun k =>
  if k = "PATH" then some "/usr/bin" else if k = "HOME" then some "/home/user"
  else some "HOST-SECRET"

/-- Counterpart of `envA` with no other variables set at all. -/
def envB : String → Option String := fun k =>
  if k = "PATH" then some "/usr/bin" else if k = "HOME" then some "/home/user" else none

/-! ## Basic filesystem lemmas -/

theorem fsExists_eq_isSome (fs : FS) (p : String) :
    fsExists fs p = (fsLookup fs p).isSome := by
  simp only [fsExists, fsLookup, Option.isSome_map]
  induction fs.files with
  | nil => rfl
  | cons a t ih =>
    by_cases h : a.1 = p
    · simp [List.any_cons, List.find?, h]
    · simp [List.any_cons, List.find?, h, ih]

theorem fsExists_fsUnlink (fs : FS) (p : String) :
    fsExists (fsUnlink fs p) p = false := by
  simp only [fsExists, fsUnlink]
  rw [Bool.eq_false_iff]
  intro h
  rcases List.any_eq_true.mp h with ⟨q, hq, hq'⟩
  rcases List.mem_filter.mp hq with ⟨_, hne⟩
  rw [decide_eq_true_eq] at hq'
  simp [hq'] at hne

/-! ## Claim C2 — platform detection -/

/-- Claim C2 counterexample: the detector never validates the machine name:
`(linux, arm64)` is outside the supported set
`{(darwin, arm64), (darwin, x86-64), (linux, x86-64)}`, yet the detector
returns `linux-x64` instead of raising `UnsupportedPlatform`; likewise
`(darwin, riscv64)` yields `darwin-x64`. -/
theorem detect_platform_unchecked_arch_counterexample :
    detectPlatform "linux" "arm64" = Except.ok "linux-x64"
  ∧ detectPlatform "darwin" "riscv64" = Except.ok "darwin-x64" :=
  ⟨rfl, rfl⟩

/-- Claim C2 (amended): only the OS is validated — `darwin`/`arm64` maps to
`darwin-arm64`, `darwin` with any other machine maps to `darwin-x64`, `linux`
with any machine maps to `linux-x64`, and any other OS (after lowering)
deterministically raises `UnsupportedPlatform` naming the offending OS and
arch. -/
theorem detect_platform_characterization (system machine : String) :
    (pyLower system = "darwin" → pyLower machine = "arm64" →
        detectPlatform system machine = Except.ok "darwin-arm64")
  ∧ (pyLower system = "darwin" → pyLower machine ≠ "arm64" →
        detectPlatform system machine = Except.ok "darwin-x64")
  ∧ (pyLower system = "linux" →
        detectPlatform system machine = Except.ok "linux-x64")
  ∧ (pyLower system ≠ "darwin" → pyLower system ≠ "linux" →
        detectPlatform system machine = Except.error
          ("Unsupported platform: " ++ pyLower system ++ "/" ++ pyLower machine)) := by
  refine ⟨fun h1 h2 => ?_, fun h1 h2 => ?_, fun h1 => ?_, fun h1 h2 => ?_⟩
  · simp [detectPlatform, h1, h2]
  · simp [detectPlatform, h1, h2]
  · simp [detectPlatform, h1]
  · simp [detectPlatform, h1, h2]

/-- Concrete instantiations of `detect_platform_characterization` at the four
supported/unsupported cases. -/
theorem detect_platform_characterization_witness :
    detectPlatform "Darwin" "ARM64" = Except.ok "darwin-arm64"
  ∧ detectPlatform "Darwin" "x86_64" = Except.ok "darwin-x64"
  ∧ detectPlatform "Linux" "aarch64" = Except.ok "linux-x64"
  ∧ detectPlatform "Windows" "AMD64" =
      Except.error ("Unsupported platform: " ++ pyLower "Windows" ++ "/" ++ pyLower "AMD64") :=
  ⟨(detect_platform_characterization "Darwin" "ARM64").1 rfl rfl,
   (detect_platform_characterization "Darwin" "x86_64").2.1 rfl (by decide),
   (detect_platform_characterization "Linux" "aarch64").2.2.1 rfl,
   (detect_platform_characterization "Windows" "AMD64").2.2.2 (by decide) (by decide)⟩

/-! ## Claim C4 — install-state check -/

/-- Claim C4 counterexample: a binary whose mode is `0o011` (group/other
execute, owner-execute clear) is reported `Installed`, though the claim
requires at least the owner-execute bit. -/
theorem is_installed_owner_bit_counterexample :
    isInstalled rtK fsGroupExec = true
  ∧ fsLookup fsGroupExec rtK.binaryPath = some (FSFile.mk [] 0o011)
  ∧ 0o011 &&& 0o100 = 0 := by
  refine ⟨by decide, by decide, by decide⟩

/-- Claim C4 (amended): the install-state check reports `Installed` iff the
deterministic binary path exists and its mode has at least one of the three
execute bits (`0o111`) set — not specifically the owner bit; the check is a
pure function of the filesystem state, recomputed on each call. -/
theorem is_installed_iff_any_exec_bit (rt : Runtime) (fs : FS) :
    isInstalled rt fs = true ↔
      ∃ f, fsLookup fs rt.binaryPath = some f ∧ f.mode &&& 0o111 ≠ 0 := by
  unfold isInstalled
  cases h : fsLookup fs rt.binaryPath with
  | none => simp
  | some f =>
    rw [fsExists_eq_isSome, h]
    simp

/-- Concrete instantiation of `is_installed_iff_any_exec_bit`. -/
theorem is_installed_iff_any_exec_bit_witness :
    isInstalled rtK fsOwnerExec = true :=
  (is_installed_iff_any_exec_bit rtK fsOwnerExec).mpr
    ⟨FSFile.mk [7] 0o755, by decide, by decide⟩

/-! ## Claim C5 — idempotence of `ensure_installed` -/

/-- Claim C5: when the install-state check already reports `Installed`,
`ensure_installed` returns the deterministic binary path immediately, leaves
the filesystem untouched, and invokes no stage at all (empty event trace — in
particular zero network I/O). -/
theorem ensure_installed_idempotent (rt : Runtime) (w : World) (fs : FS)
    (h : isInstalled rt fs = true) :
    ensureInstalled rt w fs = (Except.ok rt.binaryPath, fs, []) := by
  simp [ensureInstalled, h]

/-- Concrete instantiation of `ensure_installed_idempotent` in a world whose
network is down: the call still succeeds. -/
theorem ensure_installed_idempotent_witness :
    ensureInstalled rtK wOffline fsOwnerExec = (Except.ok rtK.binaryPath, fsOwnerExec, []) :=
  ensure_installed_idempotent rtK wOffline fsOwnerExec (by decide)

/-! ## Claim C1 — checksum mismatch -/

/-- Claim C1: when a checksum is registered for the detected platform and the
streamed digest of the temp file differs from it, checksum verification raises
an error whose message carries both the expected and the actual digest, and
the temp file no longer exists afterwards. -/
theorem verify_checksum_mismatch_raises (rt : Runtime) (w : World) (fs : FS)
    (plat : String) (tarball : FSFile)
    (hplat : detectPlatform w.system w.machine = Except.ok plat)
    (hne : checksumFor plat ≠ "")
    (hfile : fsLookup fs w.tmpPath = some tarball)
    (hmm : w.hash tarball.content ≠ checksumFor plat) :
    verifyChecksum rt w fs =
      (Except.error ("Checksum mismatch for " ++ plat ++ ":\n  expected: "
          ++ checksumFor plat ++ "\n  actual:   " ++ w.hash tarball.content),
       fsUnlink fs w.tmpPath)
  ∧ fsExists (verifyChecksum rt w fs).2 w.tmpPath = false := by
  have h1 : verifyChecksum rt w fs =
      (Except.error ("Checksum mismatch for " ++ plat ++ ":\n  expected: "
          ++ checksumFor plat ++ "\n  actual:   " ++ w.hash tarball.content),
       fsUnlink fs w.tmpPath) := by
    unfold verifyChecksum
    rw [hplat]
    simp [hne, hfile, hmm]
  exact ⟨h1, by rw [h1]; exact fsExists_fsUnlink fs w.tmpPath⟩

/-- Concrete instantiation of `verify_checksum_mismatch_raises` on the
`linux-x64` checksum table entry. -/
theorem verify_checksum_mismatch_raises_witness :
    verifyChecksum rtK wBadHash fsTmp =
      (Except.error ("Checksum mismatch for " ++ "linux-x64" ++ ":\n  expected: "
          ++ checksumFor "linux-x64" ++ "\n  actual:   " ++ "not-the-digest"),
       fsUnlink fsTmp "/tmp/codex.tar.gz")
  ∧ fsExists (verifyChecksum rtK wBadHash fsTmp).2 "/tmp/codex.tar.gz" = false :=
  verify_checksum_mismatch_raises rtK wBadHash fsTmp "linux-x64" (FSFile.mk [1, 2, 3] 0o600)
    rfl (by decide) (by decide) (by decide)

/-! ## Claim C9 — temp archive deleted on every exit of extraction -/

/-- Claim C9: on every exit path of the archive-extraction stage — direct
member install, fallback extraction, extraction failure, or an unopenable or
already-missing archive — the temporary downloaded archive file is absent from
the resulting filesystem. -/
theorem extract_tarball_deletes_tmp_archive (rt : Runtime) (w : World) (fs : FS) :
    fsExists (extractTarball rt w fs).2 w.tmpPath = false :=
  fsExists_fsUnlink _ _

/-- Concrete instantiation of `extract_tarball_deletes_tmp_archive` on a world
whose archive does not even parse. -/
theorem extract_tarball_deletes_tmp_archive_witness :
    fsExists (extractTarball rtK wOffline fsTmp).2 wOffline.tmpPath = false :=
  extract_tarball_deletes_tmp_archive rtK wOffline fsTmp

/-! ## Claim C6 — escaper: order of replacements and round-trip -/

theorem tomlEscape_eq_flatMap (s : List Char) : tomlEscape s = s.flatMap escChar := by
  simp only [tomlEscape, pyReplaceChar]
  simp only [List.flatMap_assoc]
  refine List.flatMap_congr ?_
  intro c _
  by_cases h1 : c = '\\'
  · subst h1; rfl
  by_cases h2 : c = '"'
  · subst h2; rfl
  by_cases h3 : c = '\n'
  · subst h3; rfl
  by_cases h4 : c = '\r'
  · subst h4; rfl
  by_cases h5 : c = '\t'
  · subst h5; rfl
  simp [escChar, h1, h2, h3, h4, h5]

theorem tomlUnescape_escChar (c : Char) (r : List Char) :
    tomlUnescape (escChar c ++ r) = (tomlUnescape r).map (fun t => c :: t) := by
  by_cases h1 : c = '\\'
  · subst h1; simp [escChar, tomlUnescape, unescapeOf]
  by_cases h2 : c = '"'
  · subst h2; simp [escChar, tomlUnescape, unescapeOf]
  by_cases h3 : c = '\n'
  · subst h3; simp [escChar, tomlUnescape, unescapeOf]
  by_cases h4 : c = '\r'
  · subst h4; simp [escChar, tomlUnescape, unescapeOf]
  by_cases h5 : c = '\t'
  · subst h5; simp [escChar, tomlUnescape, unescapeOf]
  have he : escChar c ++ r = c :: r := by simp [escChar, h1, h2, h3, h4, h5]
  rw [he, tomlUnescape.eq_def]
  simp [h1]

theorem tomlUnescape_flatMap_escChar (s : List Char) :
    tomlUnescape (s.flatMap escChar) = some s := by
  induction s with
  | nil => rfl
  | cons c t ih =>
    have h : (c :: t).flatMap escChar = escChar c ++ t.flatMap escChar := rfl
    rw [h, tomlUnescape_escChar, ih]
    rfl

/-- Claim C6: the five-stage escaper (backslash first, then double-quote,
newline, carriage return, tab) contributes exactly one two-character escape
per special character — a backslash introduced by a later stage is never
re-escaped — and a conforming reader of TOML basic strings decodes the escaped
value back to the original string. -/
theorem toml_escape_round_trip (s : List Char) :
    tomlEscape s = s.flatMap escChar ∧ tomlUnescape (tomlEscape s) = some s :=
  ⟨tomlEscape_eq_flatMap s, by rw [tomlEscape_eq_flatMap]; exact tomlUnescape_flatMap_escChar s⟩

/-- Concrete instantiation of `toml_escape_round_trip` on the spec's sample
value `He said "hi"` followed by a newline and `Bye`. -/
theorem toml_escape_round_trip_witness :
    tomlEscape "He said \"hi\"\nBye".data = "He said \"hi\"\nBye".data.flatMap escChar
  ∧ tomlUnescape (tomlEscape "He said \"hi\"\nBye".data) = some "He said \"hi\"\nBye".data :=
  toml_escape_round_trip "He said \"hi\"\nBye".data

/-! ## Claims C3, C7, C10 — config writer -/

/-- Claim C3 counterexample: with the invalid provider name `my.provider`,
`write_config` does raise the validation error, but the isolated home
directory has already been created by then — the state after the raise
contains the directory, contradicting “no directory is created”. -/
theorem write_config_invalid_provider_counterexample :
    (writeConfig rtK "gpt-4o" "my.provider" "https://example.com/v1" "OPENAI_API_KEY"
        "responses" SideFile.absent cfgEmpty).1 = Except.error "Invalid TOML key: my.provider"
  ∧ (writeConfig rtK "gpt-4o" "my.provider" "https://example.com/v1" "OPENAI_API_KEY"
        "responses" SideFile.absent cfgEmpty).2 =
      CfgFS.mk ["/home/user/.pretorin/codex"] [] :=
  ⟨by decide, by decide⟩

/-- Claim C3 (amended): for a provider name failing the bare-key pattern,
`write_config` raises before writing or modifying any file — the file map is
untouched — but after the `mkdir` of the isolated home directory, which is
performed before validation. -/
theorem write_config_invalid_provider_no_file_io (rt : Runtime)
    (model provider baseUrl envKey wireApi : String) (side : SideFile) (st : CfgFS)
    (h : isBareKey provider = false) :
    writeConfig rt model provider baseUrl envKey wireApi side st =
      (Except.error ("Invalid TOML key: " ++ provider), cfgMkdir st rt.codexHome)
  ∧ (cfgMkdir st rt.codexHome).files = st.files := by
  constructor
  · simp [writeConfig, tomlBareKey, h]
  · unfold cfgMkdir; split <;> rfl

/-- Concrete instantiation of `write_config_invalid_provider_no_file_io`. -/
theorem write_config_invalid_provider_no_file_io_witness :
    writeConfig rtK "gpt-4o" "my provider" "https://example.com/v1" "OPENAI_API_KEY"
        "responses" SideFile.absent cfgEmpty =
      (Except.error ("Invalid TOML key: " ++ "my provider"), cfgMkdir cfgEmpty rtK.codexHome)
  ∧ (cfgMkdir cfgEmpty rtK.codexHome).files = cfgEmpty.files :=
  write_config_invalid_provider_no_file_io rtK "gpt-4o" "my provider"
    "https://example.com/v1" "OPENAI_API_KEY" "responses" SideFile.absent cfgEmpty (by decide)

theorem extraServerLines_ok (l : List (String × McpServer))
    (h : ∀ q ∈ l, isBareKey q.1 = true) :
    extraServerLines l = Except.ok (l.flatMap (fun q => serverLines q.1 q.2)) := by
  induction l with
  | nil => rfl
  | cons a t ih =>
    obtain ⟨n, s⟩ := a
    have ha : isBareKey n = true := h (n, s) (List.mem_cons_self _ _)
    have ht : ∀ q ∈ t, isBareKey q.1 = true := fun q hq => h q (List.mem_cons_of_mem _ hq)
    simp [extraServerLines, tomlBareKey, ha, ih ht]

/-- Claim C7 counterexample: a user entry whose name is not `pretorin` but
fails the bare-key pattern is not appended to the generated config — the whole
`write_config` call raises instead and no file is written. -/
theorem write_config_invalid_server_counterexample :
    writeConfig rtK "gpt-4o" "prov" "https://example.com/v1" "KEY" "responses"
        (SideFile.parsed [("bad name", srvGh)]) cfgEmpty =
      (Except.error "Invalid TOML key: bad name",
       CfgFS.mk ["/home/user/.pretorin/codex"] []) := by decide

/-- Claim C7 (amended): entries named `pretorin` are silently dropped and the
reserved `[mcp_servers.pretorin]` subsection stays in the fixed leading lines;
every other entry whose name passes the bare-key pattern is appended as its
own subsection in side-file order (an invalid name makes the call raise
instead, as the counterexample shows). -/
theorem write_config_merges_user_servers (rt : Runtime)
    (model provider baseUrl envKey wireApi : String)
    (svs : List (String × McpServer)) (st : CfgFS)
    (hp : isBareKey provider = true)
    (hv : ∀ q ∈ svs, q.1 ≠ "pretorin" → isBareKey q.1 = true) :
    writeConfig rt model provider baseUrl envKey wireApi (SideFile.parsed svs) st =
      (Except.ok (rt.codexHome ++ "/config.toml"),
       cfgWriteFile (cfgMkdir st rt.codexHome) (rt.codexHome ++ "/config.toml")
         (String.intercalate "\n"
            (baseConfigLines provider baseUrl wireApi envKey
              ++ (svs.filter (fun q => q.1 ≠ "pretorin")).flatMap
                   (fun q => serverLines q.1 q.2)) ++ "\n"))
  ∧ "[mcp_servers.pretorin]" ∈ baseConfigLines provider baseUrl wireApi envKey := by
  constructor
  · have hv' : ∀ q ∈ svs.filter (fun q => q.1 ≠ "pretorin"), isBareKey q.1 = true := by
      intro q hq
      rcases List.mem_filter.mp hq with ⟨hmem, hne⟩
      exact hv q hmem (by simpa using hne)
    have h2 := extraServerLines_ok (svs.filter (fun q => q.1 ≠ "pretorin")) hv'
    simp only [ne_eq, decide_not] at h2
    simp [writeConfig, tomlBareKey, hp, loadUserMcpServers, h2]
  · simp [baseConfigLines]

/-- Concrete instantiation of `write_config_merges_user_servers`: a `github`
entry is appended, a user-supplied `pretorin` entry is dropped. -/
theorem write_config_merges_user_servers_witness :
    writeConfig rtK "gpt-4o" "prov" "https://example.com/v1" "KEY" "responses"
        (SideFile.parsed [("github", srvGh), ("pretorin", McpServer.mk (some "evil") none none)])
        cfgEmpty =
      (Except.ok (rtK.codexHome ++ "/config.toml"),
       cfgWriteFile (cfgMkdir cfgEmpty rtK.codexHome) (rtK.codexHome ++ "/config.toml")
         (String.intercalate "\n"
            (baseConfigLines "prov" "https://example.com/v1" "responses" "KEY"
              ++ ([("github", srvGh),
                   ("pretorin", McpServer.mk (some "evil") none none)].filter
                    (fun q => q.1 ≠ "pretorin")).flatMap
                   (fun q => serverLines q.1 q.2)) ++ "\n"))
  ∧ "[mcp_servers.pretorin]" ∈ baseConfigLines "prov" "https://example.com/v1" "responses" "KEY" :=
  write_config_merges_user_servers rtK "gpt-4o" "prov" "https://example.com/v1" "KEY"
    "responses" [("github", srvGh), ("pretorin", McpServer.mk (some "evil") none none)]
    cfgEmpty (by decide) (by decide)

/-- Claim C10: a malformed or unreadable side file is treated exactly as an
absent one — `write_config` behaves identically in all three cases — and, for
a valid provider name, the call succeeds with a config holding only the fixed
leading lines (provider section and reserved integration section). -/
theorem write_config_malformed_side_file (rt : Runtime)
    (model provider baseUrl envKey wireApi : String) (st : CfgFS) :
    writeConfig rt model provider baseUrl envKey wireApi SideFile.malformed st
      = writeConfig rt model provider baseUrl envKey wireApi SideFile.absent st
  ∧ writeConfig rt model provider baseUrl envKey wireApi SideFile.unreadable st
      = writeConfig rt model provider baseUrl envKey wireApi SideFile.absent st
  ∧ (isBareKey provider = true →
      writeConfig rt model provider baseUrl envKey wireApi SideFile.malformed st =
        (Except.ok (rt.codexHome ++ "/config.toml"),
         cfgWriteFile (cfgMkdir st rt.codexHome) (rt.codexHome ++ "/config.toml")
           (String.intercalate "\n" (baseConfigLines provider baseUrl wireApi envKey)
             ++ "\n"))) := by
  refine ⟨rfl, rfl, fun hp => ?_⟩
  simp [writeConfig, tomlBareKey, hp, loadUserMcpServers, extraServerLines]

/-- Concrete instantiation of `write_config_malformed_side_file`. -/
theorem write_config_malformed_side_file_witness :
    writeConfig rtK "gpt-4o" "prov" "https://example.com/v1" "KEY" "responses"
        SideFile.malformed cfgEmpty =
      (Except.ok (rtK.codexHome ++ "/config.toml"),
       cfgWriteFile (cfgMkdir cfgEmpty rtK.codexHome) (rtK.codexHome ++ "/config.toml")
         (String.intercalate "\n"
            (baseConfigLines "prov" "https://example.com/v1" "responses" "KEY") ++ "\n")) :=
  (write_config_malformed_side_file rtK "gpt-4o" "prov" "https://example.com/v1" "KEY"
      "responses" cfgEmpty).2.2 (by decide)

/-! ## Claim C8 — environment builder -/

theorem dictLookup_nil (k : String) : dictLookup [] k = none := rfl

theorem dictLookup_cons (p : String × String) (d : List (String × String)) (k : String) :
    dictLookup (p :: d) k = if p.1 = k then some p.2 else dictLookup d k := by
  by_cases h : p.1 = k <;> simp [dictLookup, List.find?, h]

theorem dictLookup_dictUpdate (d : List (String × String)) (kv : String × String)
    (k : String) :
    dictLookup (dictUpdate d kv) k = if kv.1 = k then some kv.2 else dictLookup d k := by
  induction d with
  | nil => simp [dictUpdate, dictLookup_cons, dictLookup_nil]
  | cons p rest ih =>
    by_cases h : p.1 = kv.1
    · have e1 : dictUpdate (p :: rest) kv = (p.1, kv.2) :: rest := by
        simp [dictUpdate, h]
      rw [e1, dictLookup_cons, dictLookup_cons, h]
      by_cases hk : kv.1 = k <;> simp [hk]
    · have e1 : dictUpdate (p :: rest) kv = p :: dictUpdate rest kv := by
        simp [dictUpdate, h]
      rw [e1, dictLookup_cons, ih, dictLookup_cons]
      by_cases hk : kv.1 = k <;> by_cases hp : p.1 = k <;> simp_all

theorem dictLookup_foldl_dictUpdate (l d : List (String × String)) (k : String) :
    dictLookup (l.foldl dictUpdate d) k =
      match lastWins l k with
      | some v => some v
      | none => dictLookup d k := by
  induction l generalizing d with
  | nil => simp [lastWins]
  | cons a t ih =>
    rw [List.foldl_cons, ih (dictUpdate d a)]
    cases hl : lastWins t k with
    | some v => simp [lastWins, hl]
    | none => by_cases h : a.1 = k <;> simp [lastWins, hl, dictLookup_dictUpdate, h]

theorem dictLookup_isSome (d : List (String × String)) (k : String) :
    (dictLookup d k).isSome = d.any (fun q => q.1 = k) := by
  induction d with
  | nil => rfl
  | cons p rest ih => by_cases h : p.1 = k <;> simp [dictLookup_cons, h, ih]

theorem lastWins_isSome (l : List (String × String)) (k : String) :
    (lastWins l k).isSome = l.any (fun q => q.1 = k) := by
  induction l with
  | nil => rfl
  | cons p rest ih =>
    cases hl : lastWins rest k with
    | some v => simp [lastWins, hl, ← ih]
    | none => by_cases h : p.1 = k <;> simp [lastWins, hl, ← ih, h]

theorem dictLookup_foldl_isSome (l d : List (String × String)) (k : String) :
    (dictLookup (l.foldl dictUpdate d) k).isSome
      = (d.any (fun q => q.1 = k) || l.any (fun q => q.1 = k)) := by
  rw [dictLookup_foldl_dictUpdate]
  cases hl : lastWins l k with
  | some v => simp [← lastWins_isSome, hl]
  | none => simp [dictLookup_isSome, ← lastWins_isSome, hl]

/-- Claim C8: the environment map built by `build_env` has exactly the key set
`{CODEX_HOME, OPENAI_API_KEY, OPENAI_BASE_URL, PATH, HOME}` united with the
override keys; on a collision the (last) override value wins; and two runs
whose caller environments agree on `PATH` and `HOME` produce identical maps —
no other inherited variable can influence the result. -/
theorem build_env_isolation (rt : Runtime) (procEnv procEnv' : String → Option String)
    (apiKey baseUrl : String) (extra : List (String × String)) :
    (∀ k, (dictLookup (buildEnv rt procEnv apiKey baseUrl extra) k).isSome = true ↔
        (k ∈ ["CODEX_HOME", "OPENAI_API_KEY", "OPENAI_BASE_URL", "PATH", "HOME"]
          ∨ ∃ v, (k, v) ∈ extra))
  ∧ (∀ k v, lastWins extra k = some v →
        dictLookup (buildEnv rt procEnv apiKey baseUrl extra) k = some v)
  ∧ (procEnv "PATH" = procEnv' "PATH" → procEnv "HOME" = procEnv' "HOME" →
        buildEnv rt procEnv apiKey baseUrl extra = buildEnv rt procEnv' apiKey baseUrl extra) := by
  refine ⟨fun k => ?_, fun k v hv => ?_, fun h1 h2 => ?_⟩
  · simp only [buildEnv]
    rw [dictLookup_foldl_isSome]
    simp only [List.any_cons, List.any_nil, Bool.or_eq_true, decide_eq_true_eq,
      List.any_eq_true, List.mem_cons, List.not_mem_nil, or_false]
    constructor
    · rintro (h | h)
      · exact Or.inl (by tauto)
      · rcases h with ⟨q, hq, rfl⟩
        exact Or.inr ⟨q.2, by simpa using hq⟩
    · rintro (h | ⟨v, hv⟩)
      · exact Or.inl (by tauto)
      · exact Or.inr ⟨(k, v), hv, rfl⟩
  · simp only [buildEnv]
    rw [dictLookup_foldl_dictUpdate, hv]
  · simp only [buildEnv, h1, h2]

/-- Concrete instantiation of `build_env_isolation`: a host secret in the
caller environment does not change the result, and an override of
`OPENAI_BASE_URL` wins. -/
theorem build_env_isolation_witness :
    buildEnv rtK envA "sk-test" "https://api.example.com/v1"
        [("OPENAI_BASE_URL", "https://override.example.com")] =
      buildEnv rtK envB "sk-test" "https://api.example.com/v1"
        [("OPENAI_BASE_URL", "https://override.example.com")]
  ∧ dictLookup (buildEnv rtK envA "sk-test" "https://api.example.com/v1"
        [("OPENAI_BASE_URL", "https://override.example.com")]) "OPENAI_BASE_URL"
      = some "https://override.example.com" :=
  ⟨(build_env_isolation rtK envA envB "sk-test" "https://api.example.com/v1"
      [("OPENAI_BASE_URL", "https://override.example.com")]).2.2 (by decide) (by decide),
   (build_env_isolation rtK envA envB "sk-test" "https://api.example.com/v1"
      [("OPENAI_BASE_URL", "https://override.example.com")]).2.1
     "OPENAI_BASE_URL" "https://override.example.com" (by decide)⟩

end CodexRuntime
